import Mathlib

/-!
Shallow embedding of the validation-and-correction core of the
TA Ops job-requisition audit system (`ta_ops_audit_agent.py`,
`enhanced_corrector.py`).

Python floats (pay rates, similarity scores) are modelled as exact
rationals `ℚ`; Python `Optional` values as `Option`; the external
LLM similarity oracle as an explicit function argument; the
Excel-backed pay-transparency map as a lookup function
`String → Option String` (mirroring `dict.get`, which returns `None`
for a missing key).
-/

namespace JobReq

/-- `ValidationStatus` enum (`ta_ops_audit_agent.py` lines 25-31).
`FOR_CHECKING` (source string "FOR CHECKING") is the verdict the spec
calls NEEDS_REVIEW. -/
inductive ValidationStatus where
  | PASS
  | FAIL
  | FOR_CHECKING
  | NOT_APPLICABLE
deriving DecidableEq, Repr

/-- The string value each enum member carries in the source. -/
def ValidationStatus.value : ValidationStatus → String
  | .PASS => "Yes"
  | .FAIL => "No"
  | .FOR_CHECKING => "FOR CHECKING"
  | .NOT_APPLICABLE => "N/A"

/-- `GroundTruth` dataclass (`ta_ops_audit_agent.py` lines 33-41). -/
structure GroundTruth where
  job_requisition_number : String
  business_unit_name : String
  min_pay_rate : ℚ
  max_pay_rate : ℚ
  facility : String
  state : String
deriving DecidableEq, Repr

/-- `ExtractedData` dataclass (`ta_ops_audit_agent.py` lines 44-58).
The `role_specific_rates` dict is modelled as an association list in
insertion order. -/
structure ExtractedData where
  job_id : String
  banner : String
  location : String
  state : String
  min_pay_rate : Option ℚ
  max_pay_rate : Option ℚ
  job_schedule : String
  posting_date : String
  role_specific_rates : List (String × ℚ × ℚ)
  job_description_present : Bool
  pay_transparency_text : String
  has_dollar_signs : Bool
deriving DecidableEq, Repr

/-- The entries of the `corrections_needed : List[str]` list built by
`Agent2_Validator.validate`.  Each constructor stands for one of the
distinct message strings the source appends, carrying the data
interpolated into that message; the exact text rendering is
presentation only. -/
inductive CorrectionReason where
  /-- "Job description section missing or incomplete" -/
  | jobDescriptionMissing
  /-- "Minimum pay rate not found in document" -/
  | minRateNotFound
  /-- "Min pay rate mismatch: Document shows $d, should be $g" -/
  | minRateMismatch (document : ℚ) (truth : ℚ)
  /-- "Maximum pay rate not found in document" -/
  | maxRateNotFound
  /-- "Max pay rate mismatch: Document shows $d, should be $g" -/
  | maxRateMismatch (document : ℚ) (truth : ℚ)
  /-- "Role 'r' pay range $a-$b falls outside allowed range $lo-$hi" -/
  | roleOutOfRange (role : String) (role_min role_max truth_min truth_max : ℚ)
  /-- "Pay transparency text for state s does not match expected template" -/
  | transparencyMismatch (state : String)
  /-- "Pay rates missing dollar sign ($) formatting" -/
  | dollarSignMissing
deriving DecidableEq, Repr

/-- `ValidationResult` dataclass (`ta_ops_audit_agent.py` lines 61-70). -/
structure ValidationResult where
  correct_template : ValidationStatus
  correct_min_pay_rate : ValidationStatus
  correct_max_pay_rate : ValidationStatus
  job_description : ValidationStatus
  dollar_sign_included : ValidationStatus
  corrections_needed : List CorrectionReason
  corrections_completed : List CorrectionReason
deriving DecidableEq, Repr

/-- Check 1 of `validate` (lines 216-220): template structure.
Starts at PASS, flips to FAIL and appends a correction when
`job_description_present` is false. -/
def templateCheck (job_description_present : Bool) :
    ValidationStatus × List CorrectionReason :=
  if job_description_present then (.PASS, [])
  else (.FAIL, [.jobDescriptionMissing])

/-- Check 2 of `validate` (lines 222-232): minimum pay rate.
`None` gives FOR_CHECKING; a present value farther than 0.01 from the
ground-truth minimum gives FAIL; otherwise PASS. -/
def minRateCheck (extracted_min : Option ℚ) (truth_min : ℚ) :
    ValidationStatus × List CorrectionReason :=
  match extracted_min with
  | none => (.FOR_CHECKING, [.minRateNotFound])
  | some r =>
    if |r - truth_min| > 1/100 then (.FAIL, [.minRateMismatch r truth_min])
    else (.PASS, [])

/-- Check 3 of `validate` (lines 234-244): maximum pay rate, symmetric
to `minRateCheck`. -/
def maxRateCheck (extracted_max : Option ℚ) (truth_max : ℚ) :
    ValidationStatus × List CorrectionReason :=
  match extracted_max with
  | none => (.FOR_CHECKING, [.maxRateNotFound])
  | some r =>
    if |r - truth_max| > 1/100 then (.FAIL, [.maxRateMismatch r truth_max])
    else (.PASS, [])

/-- The rate-equality comparison used (inline) by the min-rate and
max-rate checks: the rates compare equal exactly when the mismatch
test `abs(a - b) > 0.01` of lines 227/239 is false. -/
def rates_equal (a b : ℚ) : Bool :=
  ! decide (|a - b| > 1/100)

/-- Check 4 of `validate` (lines 246-253): every role-specific rate
pair with `role_min < ground_truth.min_pay_rate or
role_max > ground_truth.max_pay_rate` contributes one correction, in
list order. -/
def roleRateCorrections (role_specific_rates : List (String × ℚ × ℚ))
    (truth_min truth_max : ℚ) : List CorrectionReason :=
  role_specific_rates.filterMap fun entry =>
    if entry.2.1 < truth_min ∨ entry.2.2 > truth_max then
      some (.roleOutOfRange entry.1 entry.2.1 entry.2.2 truth_min truth_max)
    else none

/-- Check 5 of `validate` (lines 255-265): pay-transparency text.
`pay_transparency_map.get(state)` must be truthy (present and
non-empty) for the similarity oracle to be consulted at all; a score
below the 0.95 threshold contributes a correction. -/
def transparencyCorrections (pay_transparency_map : String → Option String)
    (similarity : String → String → ℚ)
    (state : String) (pay_transparency_text : String) : List CorrectionReason :=
  match pay_transparency_map state with
  | none => []
  | some expected =>
    if expected ≠ "" then
      if similarity pay_transparency_text expected < 95/100 then
        [.transparencyMismatch state]
      else []
    else []

/-- Check 6 of `validate` (lines 267-271): dollar-sign formatting. -/
def dollarCheck (has_dollar_signs : Bool) :
    ValidationStatus × List CorrectionReason :=
  if has_dollar_signs then (.PASS, [])
  else (.FAIL, [.dollarSignMissing])

/-- `Agent2_Validator.validate` (lines 199-284).  The five named
verdicts plus `corrections_needed`, assembled in the source's append
order: template, min rate, max rate, role ranges, transparency,
dollar signs.  The job-description verdict (line 274) mirrors the
template check's boolean. -/
def validate (pay_transparency_map : String → Option String)
    (similarity : String → String → ℚ)
    (extracted : ExtractedData) (ground_truth : GroundTruth) : ValidationResult :=
  { correct_template := (templateCheck extracted.job_description_present).1
    correct_min_pay_rate :=
      (minRateCheck extracted.min_pay_rate ground_truth.min_pay_rate).1
    correct_max_pay_rate :=
      (maxRateCheck extracted.max_pay_rate ground_truth.max_pay_rate).1
    job_description :=
      if extracted.job_description_present then .PASS else .FAIL
    dollar_sign_included := (dollarCheck extracted.has_dollar_signs).1
    corrections_needed :=
      (templateCheck extracted.job_description_present).2
        ++ (minRateCheck extracted.min_pay_rate ground_truth.min_pay_rate).2
        ++ (maxRateCheck extracted.max_pay_rate ground_truth.max_pay_rate).2
        ++ roleRateCorrections extracted.role_specific_rates
            ground_truth.min_pay_rate ground_truth.max_pay_rate
        ++ transparencyCorrections pay_transparency_map similarity
            extracted.state extracted.pay_transparency_text
        ++ (dollarCheck extracted.has_dollar_signs).2
    corrections_completed := [] }

/-- `Agent2_Validator._check_text_similarity` (lines 286-315): the
oracle's textual response is parsed as a float; a response that fails
to parse (`parsed_response = none`) yields score 0.0. -/
def check_text_similarity (parsed_response : Option ℚ) : ℚ :=
  match parsed_response with
  | some score => score
  | none => 0

/-- The concrete edits `Agent3_Corrector._build_correction_instructions`
(lines 399-442) derives from `corrections_needed` entries.  Each
constructor is one of the five `if/elif` branches, carrying the data
the source interpolates into the instruction text. -/
inductive CorrectionInstruction where
  /-- "CORRECTION 1: Change Minimum Pay Rate from ... to ..." -/
  | changeMinRate (current : Option ℚ) (corrected : ℚ)
  /-- "CORRECTION 2: Change Maximum Pay Rate from ... to ..." -/
  | changeMaxRate (current : Option ℚ) (corrected : ℚ)
  /-- "CORRECTION 3: Replace the Pay Transparency section with ..." -/
  | replaceTransparency (text : Option String)
  /-- "CORRECTION 4: Ensure all pay rates have dollar signs" -/
  | formatDollarSigns
  /-- "CORRECTION 5: adjust a role's pay range into the allowed range" -/
  | adjustRoleRange (role : String) (role_min role_max truth_min truth_max : ℚ)
deriving DecidableEq, Repr

/-- `Agent3_Corrector._build_correction_instructions` (lines 399-442):
one instruction per matching `corrections_needed` entry.  The source
dispatches on substrings of the message; a "not found" message and the
job-description message match no branch and produce no instruction. -/
def build_correction_instructions (extracted : ExtractedData)
    (ground_truth : GroundTruth)
    (pay_transparency_map : String → Option String)
    (corrections_needed : List CorrectionReason) : List CorrectionInstruction :=
  corrections_needed.filterMap fun c =>
    match c with
    | .minRateMismatch _ _ =>
      some (.changeMinRate extracted.min_pay_rate ground_truth.min_pay_rate)
    | .maxRateMismatch _ _ =>
      some (.changeMaxRate extracted.max_pay_rate ground_truth.max_pay_rate)
    | .transparencyMismatch _ =>
      some (.replaceTransparency (pay_transparency_map extracted.state))
    | .dollarSignMissing => some .formatDollarSigns
    | .roleOutOfRange role role_min role_max _ _ =>
      some (.adjustRoleRange role role_min role_max
        ground_truth.min_pay_rate ground_truth.max_pay_rate)
    | _ => none

/-- The entries of the `corrections_applied` list returned by
`Agent3_Corrector.apply_corrections`: either the literal
"No corrections needed" message or a copied `corrections_needed`
entry. -/
inductive ApplyMsg where
  | noCorrectionsNeeded
  | applied (reason : CorrectionReason)
deriving DecidableEq, Repr

/-- `Agent3_Corrector.apply_corrections` (lines 329-397): with an empty
`corrections_needed` list it returns the original path and the
"No corrections needed" message (lines 351-352); otherwise it writes a
corrected document and returns a copy of `corrections_needed`.  The
LLM rewriting of the document body is external and not modelled. -/
def apply_corrections (pdf_path : String)
    (validation_result : ValidationResult) : String × List ApplyMsg :=
  if validation_result.corrections_needed = [] then
    (pdf_path, [.noCorrectionsNeeded])
  else
    (pdf_path.replace ".pdf" "_CORRECTED.txt",
      validation_result.corrections_needed.map .applied)

/-- The role-rate portion of
`EnhancedDocumentCorrector.generate_corrected_document`
(`enhanced_corrector.py` lines 116-124): every role's pair is emitted
with `adjusted_min = max(min_rate, ground_truth.min_pay_rate)` and
`adjusted_max = min(max_rate, ground_truth.max_pay_rate)`; there is no
error path. -/
def generate_corrected_role_rates (role_rates : List (String × ℚ × ℚ))
    (ground_truth : GroundTruth) : List (String × ℚ × ℚ) :=
  role_rates.map fun entry =>
    (entry.1, max entry.2.1 ground_truth.min_pay_rate,
      min entry.2.2 ground_truth.max_pay_rate)

/-- `TAOpsAuditOrchestrator.batch_process` (lines 655-695).
`pdf_exists` models the `pdf_file.exists()` test; `process` models
`process_requisition`, whose exceptions (extraction errors and any
other per-requisition failure) become `Except.error`.  A missing PDF
or a failed requisition is skipped with `continue`: only successful
results are appended. -/
def batch_process {α : Type} (pdf_exists : String → Bool)
    (process : GroundTruth → Except String α)
    (sharepoint_data : List GroundTruth) : List α :=
  match sharepoint_data with
  | [] => []
  | ground_truth :: rest =>
    if pdf_exists ground_truth.job_requisition_number then
      match process ground_truth with
      | .ok result => result :: batch_process pdf_exists process rest
      | .error _ => batch_process pdf_exists process rest
    else
      batch_process pdf_exists process rest

/-! ### Concrete fixtures, taken from the example data in the sources -/

/-- An empty pay-transparency map (no jurisdiction has reference text). -/
def tmap0 : String → Option String := fun _ => none

/-- A Stubbed similarity oracle that always reports a perfect score. -/
def sim_one : String → String → ℚ := fun _ _ => 1

/-- Ground truth for requisition 651640
(`ta_ops_audit_agent.py` lines 709-716). -/
def gt_651640 : GroundTruth :=
  { job_requisition_number := "651640"
    business_unit_name := "27R-Seattle"
    min_pay_rate := 14.75
    max_pay_rate := 15
    facility := "1148"
    state := "IL" }

/-- Extraction of requisition 651640 in which the minimum pay rate was
not found; every other field matches the ground truth. -/
def e_missing_min : ExtractedData :=
  { job_id := "651640"
    banner := "Jewel Osco"
    location := "1148 OGDEN AVE, DOWNERS GROVE, IL"
    state := "IL"
    min_pay_rate := none
    max_pay_rate := some 15
    job_schedule := "Part time"
    posting_date := "11/04/2025"
    role_specific_rates := []
    job_description_present := true
    pay_transparency_text := ""
    has_dollar_signs := true }

/-! ### Which checks contribute `corrections_needed` entries -/

theorem templateCheck_snd_eq_nil (b : Bool) :
    (templateCheck b).2 = [] ↔ ¬ (templateCheck b).1 = ValidationStatus.FAIL := by
  cases b <;> simp [templateCheck]

theorem minRateCheck_snd_eq_nil (m : Option ℚ) (g : ℚ) :
    (minRateCheck m g).2 = [] ↔
      (minRateCheck m g).1 = ValidationStatus.PASS := by
  cases m with
  | none => simp [minRateCheck]
  | some r =>
    simp only [minRateCheck]
    split <;> simp

theorem maxRateCheck_snd_eq_nil (m : Option ℚ) (g : ℚ) :
    (maxRateCheck m g).2 = [] ↔
      (maxRateCheck m g).1 = ValidationStatus.PASS := by
  cases m with
  | none => simp [maxRateCheck]
  | some r =>
    simp only [maxRateCheck]
    split <;> simp

theorem roleRateCorrections_eq_nil (rs : List (String × ℚ × ℚ)) (a b : ℚ) :
    roleRateCorrections rs a b = [] ↔
      ¬ ∃ entry ∈ rs, entry.2.1 < a ∨ entry.2.2 > b := by
  constructor
  · intro h hex
    obtain ⟨entry, hm, hc⟩ := hex
    have h2 := List.filterMap_eq_nil_iff.mp h entry hm
    rw [if_pos hc] at h2
    cases h2
  · intro h
    apply List.filterMap_eq_nil_iff.mpr
    intro entry hm
    rw [if_neg]
    intro hc
    exact h ⟨entry, hm, hc⟩

theorem transparencyCorrections_eq_nil (tm : String → Option String)
    (sim : String → String → ℚ) (st txt : String) :
    transparencyCorrections tm sim st txt = [] ↔
      ¬ ∃ expected, tm st = some expected ∧ expected ≠ "" ∧
          sim txt expected < 95/100 := by
  unfold transparencyCorrections
  cases h : tm st with
  | none => simp [h]
  | some t =>
    by_cases ht : t = ""
    · subst ht
      simp [h]
    · by_cases hs : sim txt t < 95/100 <;> simp [h, ht, hs]

theorem dollarCheck_snd_eq_nil (b : Bool) :
    (dollarCheck b).2 = [] ↔ ¬ (dollarCheck b).1 = ValidationStatus.FAIL := by
  cases b <;> simp [dollarCheck]

theorem not_and_six {a b c d e f : Prop} :
    ¬ (¬ a ∧ b ∧ c ∧ ¬ d ∧ ¬ e ∧ ¬ f) ↔ (a ∨ ¬ b ∨ ¬ c ∨ d ∨ e ∨ f) := by
  tauto

/-- C1 (amended): `corrections_needed` is non-empty iff the template
check fails, the min- or max-rate verdict is other than PASS (FAIL on
a mismatch or FOR_CHECKING on a missing rate), some role-rate pair
trips the source's out-of-range test, the looked-up reference text is
present, non-empty and scored below the 0.95 threshold, or the
dollar-sign check fails.  Unlike the spec's invariant, a FOR_CHECKING
(NEEDS_REVIEW) rate verdict does contribute an entry. -/
theorem corrections_nonempty_iff (tm : String → Option String)
    (sim : String → String → ℚ) (e : ExtractedData) (g : GroundTruth) :
    (validate tm sim e g).corrections_needed ≠ [] ↔
      ((validate tm sim e g).correct_template = ValidationStatus.FAIL
        ∨ ¬ (validate tm sim e g).correct_min_pay_rate = ValidationStatus.PASS
        ∨ ¬ (validate tm sim e g).correct_max_pay_rate = ValidationStatus.PASS
        ∨ (∃ entry ∈ e.role_specific_rates,
            entry.2.1 < g.min_pay_rate ∨ entry.2.2 > g.max_pay_rate)
        ∨ (∃ expected, tm e.state = some expected ∧ expected ≠ "" ∧
            sim e.pay_transparency_text expected < 95/100)
        ∨ (validate tm sim e g).dollar_sign_included = ValidationStatus.FAIL) := by
  simp only [validate, ne_eq, List.append_eq_nil, and_assoc]
  rw [templateCheck_snd_eq_nil, minRateCheck_snd_eq_nil, maxRateCheck_snd_eq_nil,
    roleRateCorrections_eq_nil, transparencyCorrections_eq_nil, dollarCheck_snd_eq_nil]
  exact not_and_six

/-- C1 counterexample: when the extracted minimum pay rate is absent
and everything else is in order, `corrections_needed` holds the
"Minimum pay rate not found in document" entry even though no check is
FAIL, no role-rate pair is outside the ground-truth range, and no
similarity score is below the threshold — refuting the claimed
invariant at this input. -/
theorem corrections_nonempty_iff_cex :
    ¬ (((validate tmap0 sim_one e_missing_min gt_651640).corrections_needed ≠ []) ↔
        ((validate tmap0 sim_one e_missing_min gt_651640).correct_template
            = ValidationStatus.FAIL
          ∨ (validate tmap0 sim_one e_missing_min gt_651640).correct_min_pay_rate
            = ValidationStatus.FAIL
          ∨ (validate tmap0 sim_one e_missing_min gt_651640).correct_max_pay_rate
            = ValidationStatus.FAIL
          ∨ (validate tmap0 sim_one e_missing_min gt_651640).job_description
            = ValidationStatus.FAIL
          ∨ (validate tmap0 sim_one e_missing_min gt_651640).dollar_sign_included
            = ValidationStatus.FAIL
          ∨ (∃ entry ∈ e_missing_min.role_specific_rates,
              ¬ (gt_651640.min_pay_rate ≤ entry.2.1 ∧
                  entry.2.1 ≤ gt_651640.max_pay_rate) ∨
              ¬ (gt_651640.min_pay_rate ≤ entry.2.2 ∧
                  entry.2.2 ≤ gt_651640.max_pay_rate))
          ∨ (∃ expected, tmap0 e_missing_min.state = some expected ∧ expected ≠ "" ∧
              sim_one e_missing_min.pay_transparency_text expected < 95/100))) := by
  have hv : validate tmap0 sim_one e_missing_min gt_651640 =
      { correct_template := .PASS
        correct_min_pay_rate := .FOR_CHECKING
        correct_max_pay_rate := .PASS
        job_description := .PASS
        dollar_sign_included := .PASS
        corrections_needed := [.minRateNotFound]
        corrections_completed := [] } := by
    norm_num [validate, templateCheck, minRateCheck, maxRateCheck,
      roleRateCorrections, transparencyCorrections, dollarCheck,
      e_missing_min, gt_651640, tmap0, abs_le, abs_lt, le_abs, lt_abs]
  intro h
  rw [hv] at h
  simp [e_missing_min, tmap0] at h

/-- C2: the comparison behind the min- and max-rate checks accepts two
non-negative rates exactly when they differ by at most the 0.01
tolerance; at the boundary, 14.75 vs 14.76 compares equal (verdict
PASS) while 14.75 vs 14.77 does not (verdict FAIL). -/
theorem rates_equal_iff_tolerance (a b : ℚ) (_ha : 0 ≤ a) (_hb : 0 ≤ b) :
    (rates_equal a b = true ↔ |a - b| ≤ 1/100) ∧
    rates_equal 14.75 14.76 = true ∧
    rates_equal 14.75 14.77 = false ∧
    (minRateCheck (some 14.76) 14.75).1 = ValidationStatus.PASS ∧
    (minRateCheck (some 14.77) 14.75).1 = ValidationStatus.FAIL := by
  refine ⟨?_, ?_, ?_, ?_, ?_⟩
  · simp [rates_equal, not_lt]
  · norm_num [rates_equal, abs_le, abs_lt, le_abs, lt_abs]
  · norm_num [rates_equal, abs_le, abs_lt, le_abs, lt_abs]
  · norm_num [minRateCheck, abs_le, abs_lt, le_abs, lt_abs]
  · norm_num [minRateCheck, abs_le, abs_lt, le_abs, lt_abs]

theorem rates_equal_iff_tolerance_witness :
    (0 : ℚ) ≤ 14.75 ∧ (0 : ℚ) ≤ 14.76 ∧ rates_equal 14.75 14.76 = true :=
  ⟨by norm_num, by norm_num,
    (rates_equal_iff_tolerance 14.75 14.76 (by norm_num) (by norm_num)).2.1⟩

theorem minRateCheck_some (r g : ℚ) :
    (minRateCheck (some r) g).1 =
      (if rates_equal r g then ValidationStatus.PASS else ValidationStatus.FAIL) := by
  by_cases hc : (100 : ℚ)⁻¹ < |r - g|
  · have hb : rates_equal r g = false := by simp [rates_equal, hc]
    simp [minRateCheck, hc, hb]
  · have hb : rates_equal r g = true := by simp [rates_equal, hc]
    simp [minRateCheck, hc, hb]

theorem maxRateCheck_some (r g : ℚ) :
    (maxRateCheck (some r) g).1 =
      (if rates_equal r g then ValidationStatus.PASS else ValidationStatus.FAIL) := by
  by_cases hc : (100 : ℚ)⁻¹ < |r - g|
  · have hb : rates_equal r g = false := by simp [rates_equal, hc]
    simp [maxRateCheck, hc, hb]
  · have hb : rates_equal r g = true := by simp [rates_equal, hc]
    simp [maxRateCheck, hc, hb]

/-- C6: an absent extracted minimum pay rate gives the min-rate check
verdict FOR_CHECKING (the spec's NEEDS_REVIEW), which is neither PASS
nor FAIL; a present rate gives PASS exactly when it is rate-equal to
the ground-truth minimum and FAIL otherwise; the max-rate check is
symmetric. -/
theorem rate_check_verdicts (tm : String → Option String)
    (sim : String → String → ℚ) (e : ExtractedData) (g : GroundTruth) :
    (e.min_pay_rate = none →
      (validate tm sim e g).correct_min_pay_rate = ValidationStatus.FOR_CHECKING) ∧
    (∀ r, e.min_pay_rate = some r →
      (validate tm sim e g).correct_min_pay_rate =
        (if rates_equal r g.min_pay_rate then ValidationStatus.PASS
          else ValidationStatus.FAIL)) ∧
    (e.max_pay_rate = none →
      (validate tm sim e g).correct_max_pay_rate = ValidationStatus.FOR_CHECKING) ∧
    (∀ r, e.max_pay_rate = some r →
      (validate tm sim e g).correct_max_pay_rate =
        (if rates_equal r g.max_pay_rate then ValidationStatus.PASS
          else ValidationStatus.FAIL)) ∧
    ValidationStatus.FOR_CHECKING ≠ ValidationStatus.PASS ∧
    ValidationStatus.FOR_CHECKING ≠ ValidationStatus.FAIL := by
  refine ⟨?_, ?_, ?_, ?_, by simp, by simp⟩
  · intro h
    simp [validate, minRateCheck, h]
  · intro r h
    have hv : (validate tm sim e g).correct_min_pay_rate =
        (minRateCheck e.min_pay_rate g.min_pay_rate).1 := rfl
    rw [hv, h, minRateCheck_some]
  · intro h
    simp [validate, maxRateCheck, h]
  · intro r h
    have hv : (validate tm sim e g).correct_max_pay_rate =
        (maxRateCheck e.max_pay_rate g.max_pay_rate).1 := rfl
    rw [hv, h, maxRateCheck_some]

theorem rate_check_verdicts_witness :
    (validate tmap0 sim_one e_missing_min gt_651640).correct_min_pay_rate =
      ValidationStatus.FOR_CHECKING :=
  (rate_check_verdicts tmap0 sim_one e_missing_min gt_651640).1 rfl

/-- C3 counterexample: with ground truth [14.75, 15] and the degenerate
role pair (16, 14.8), the role minimum 16 is not contained in the
range, yet the source's test (`role_min < gt.min or role_max >
gt.max`) does not fire and no correction reason is emitted. -/
theorem role_range_containment_cex :
    (14.75 : ℚ) ≤ 15 ∧
    ¬ ((14.75 : ℚ) ≤ 16 ∧ (16 : ℚ) ≤ 15) ∧
    roleRateCorrections [("Grocery Associate", 16, 14.8)] 14.75 15 = [] := by
  refine ⟨by norm_num, by norm_num, ?_⟩
  norm_num [roleRateCorrections, List.filterMap_cons]

/-- C3 (amended): for a role pair with `role_min ≤ role_max` and a
ground truth with `min ≤ max`, a correction reason referencing the
role is emitted exactly when the pair is not inclusively contained in
the range (which then coincides with the source's
`role_min < gt.min or role_max > gt.max` test); a pair equal to
(gt.min, gt.max) never produces a reason.  Without `role_min ≤
role_max` the equivalence fails, as the counterexample shows. -/
theorem role_range_containment_amended
    (roles : List (String × ℚ × ℚ)) (gmin gmax : ℚ) (role : String)
    (rmin rmax : ℚ) (_hg : gmin ≤ gmax) (hrm : rmin ≤ rmax)
    (hmem : (role, rmin, rmax) ∈ roles) :
    (CorrectionReason.roleOutOfRange role rmin rmax gmin gmax ∈
        roleRateCorrections roles gmin gmax ↔
      (¬ (gmin ≤ rmin ∧ rmin ≤ gmax) ∨ ¬ (gmin ≤ rmax ∧ rmax ≤ gmax))) ∧
    CorrectionReason.roleOutOfRange role gmin gmax gmin gmax ∉
      roleRateCorrections roles gmin gmax := by
  constructor
  · constructor
    · intro hin
      obtain ⟨entry, hm, hf⟩ := List.mem_filterMap.mp hin
      by_cases hc : entry.2.1 < gmin ∨ entry.2.2 > gmax
      · rw [if_pos hc] at hf
        injection hf with hf2
        injection hf2 with h1 h2 h3 h4 h5
        rw [h2, h3] at hc
        rcases hc with hlt | hgt
        · exact Or.inl fun hcon => absurd hlt (not_lt.mpr hcon.1)
        · exact Or.inr fun hcon => absurd hgt (not_lt.mpr hcon.2)
      · rw [if_neg hc] at hf
        cases hf
    · intro hviol
      apply List.mem_filterMap.mpr
      refine ⟨(role, rmin, rmax), hmem, ?_⟩
      have hc : rmin < gmin ∨ rmax > gmax := by
        rcases hviol with h | h
        · rcases not_and_or.mp h with h1 | h1
          · exact Or.inl (not_le.mp h1)
          · exact Or.inr (lt_of_lt_of_le (not_le.mp h1) hrm)
        · rcases not_and_or.mp h with h1 | h1
          · exact Or.inl (lt_of_le_of_lt hrm (not_le.mp h1))
          · exact Or.inr (not_le.mp h1)
      show (if rmin < gmin ∨ rmax > gmax then
          some (CorrectionReason.roleOutOfRange role rmin rmax gmin gmax)
        else none) = some (CorrectionReason.roleOutOfRange role rmin rmax gmin gmax)
      rw [if_pos hc]
  · intro hin
    obtain ⟨entry, hm, hf⟩ := List.mem_filterMap.mp hin
    by_cases hc : entry.2.1 < gmin ∨ entry.2.2 > gmax
    · rw [if_pos hc] at hf
      injection hf with hf2
      injection hf2 with h1 h2 h3 h4 h5
      rw [h2, h3] at hc
      rcases hc with h | h
      · exact lt_irrefl _ h
      · exact lt_irrefl _ h
    · rw [if_neg hc] at hf
      cases hf

theorem role_range_containment_amended_witness :
    CorrectionReason.roleOutOfRange "Meat Associate" 13.50 19.00 14.75 15 ∈
      roleRateCorrections [("Meat Associate", 13.50, 19.00)] 14.75 15 :=
  (role_range_containment_amended [("Meat Associate", 13.50, 19.00)] 14.75 15
    "Meat Associate" 13.50 19.00 (by norm_num) (by norm_num) (by simp)).1.mpr
    (by norm_num)

/-- C4 counterexample: with ground truth [14.75, 15] and role pair
(16, 20), the enhanced corrector clips to (max 16 14.75, min 20 15) =
(16, 15) — an inverted range — and emits it silently; there is no
`PlanningError` path in the code. -/
theorem planner_silent_clip_cex :
    generate_corrected_role_rates [("Night Crew Lead", 16, 20)] gt_651640 =
      [("Night Crew Lead", 16, 15)] ∧ (16 : ℚ) > 15 := by
  constructor
  · norm_num [generate_corrected_role_rates, gt_651640, max_def, min_def]
  · norm_num

/-- C4 (amended): the corrector emits, for every role, the clipped
pair (max(role_min, gt.min), min(role_max, gt.max)) — also when that
pair is inverted — and drops no role; planning never fails. -/
theorem planner_clips_amended (role_rates : List (String × ℚ × ℚ))
    (g : GroundTruth) (role : String) (rmin rmax : ℚ)
    (hmem : (role, rmin, rmax) ∈ role_rates) :
    (role, max rmin g.min_pay_rate, min rmax g.max_pay_rate) ∈
      generate_corrected_role_rates role_rates g ∧
    (generate_corrected_role_rates role_rates g).length = role_rates.length := by
  constructor
  · exact List.mem_map.mpr ⟨(role, rmin, rmax), hmem, rfl⟩
  · simp [generate_corrected_role_rates]

theorem planner_clips_amended_witness :
    ("Night Crew Lead", max (16 : ℚ) gt_651640.min_pay_rate,
        min (20 : ℚ) gt_651640.max_pay_rate) ∈
      generate_corrected_role_rates [("Night Crew Lead", 16, 20)] gt_651640 :=
  (planner_clips_amended [("Night Crew Lead", 16, 20)] gt_651640
    "Night Crew Lead" 16 20 (by simp)).1

/-- Extraction of requisition 651640 that agrees with the ground
truth on every check. -/
def e_clean : ExtractedData :=
  { job_id := "651640"
    banner := "Jewel Osco"
    location := "1148 OGDEN AVE, DOWNERS GROVE, IL"
    state := "IL"
    min_pay_rate := some 14.75
    max_pay_rate := some 15
    job_schedule := "Part time"
    posting_date := "11/04/2025"
    role_specific_rates := [("Grocery Associate", 14.75, 15)]
    job_description_present := true
    pay_transparency_text := ""
    has_dollar_signs := true }

/-- A second all-ones similarity oracle, pointwise equal to `sim_one`
but not definitionally identical. -/
def sim_one_alt : String → String → ℚ := fun _ _ => 2/2

/-- A pay-transparency map with an entry for Illinois only. -/
def tmap_il : String → Option String := fun st =>
  if st = "IL" then some "Illinois pay transparency reference text" else none

/-- C5: against an `ExtractedFields` whose validation produces an
empty `corrections_needed` list, the correction planner derives no
instructions, and `apply_corrections` leaves the document path
untouched, reporting only the "No corrections needed" message. -/
theorem plan_idempotent (tm : String → Option String)
    (sim : String → String → ℚ) (e : ExtractedData) (g : GroundTruth)
    (pdf_path : String)
    (h : (validate tm sim e g).corrections_needed = []) :
    build_correction_instructions e g tm
      (validate tm sim e g).corrections_needed = [] ∧
    (apply_corrections pdf_path (validate tm sim e g)).1 = pdf_path ∧
    (apply_corrections pdf_path (validate tm sim e g)).2 =
      [ApplyMsg.noCorrectionsNeeded] := by
  refine ⟨?_, ?_, ?_⟩
  · rw [h]
    rfl
  · simp [apply_corrections, h]
  · simp [apply_corrections, h]

theorem plan_idempotent_witness :
    build_correction_instructions e_clean gt_651640 tmap0
      (validate tmap0 sim_one e_clean gt_651640).corrections_needed = [] :=
  (plan_idempotent tmap0 sim_one e_clean gt_651640 "651640.pdf" (by
    norm_num [validate, templateCheck, minRateCheck, maxRateCheck,
      roleRateCorrections, transparencyCorrections, dollarCheck, e_clean,
      gt_651640, tmap0, List.filterMap_cons, abs_le, abs_lt, le_abs, lt_abs])).1

/-- C8: the five named check verdicts do not consult the similarity
oracle at all, and with the oracle fixed to one pure function the
whole `ValidationResult` is a function of the extracted fields, ground
truth and reference store: two runs agree. -/
theorem validate_deterministic (tm : String → Option String)
    (sim1 sim2 : String → String → ℚ) (e : ExtractedData) (g : GroundTruth) :
    ((validate tm sim1 e g).correct_template =
        (validate tm sim2 e g).correct_template ∧
      (validate tm sim1 e g).correct_min_pay_rate =
        (validate tm sim2 e g).correct_min_pay_rate ∧
      (validate tm sim1 e g).correct_max_pay_rate =
        (validate tm sim2 e g).correct_max_pay_rate ∧
      (validate tm sim1 e g).job_description =
        (validate tm sim2 e g).job_description ∧
      (validate tm sim1 e g).dollar_sign_included =
        (validate tm sim2 e g).dollar_sign_included) ∧
    ((∀ s t, sim1 s t = sim2 s t) →
      validate tm sim1 e g = validate tm sim2 e g) := by
  refine ⟨⟨rfl, rfl, rfl, rfl, rfl⟩, ?_⟩
  intro h
  have ht : transparencyCorrections tm sim1 e.state e.pay_transparency_text =
      transparencyCorrections tm sim2 e.state e.pay_transparency_text := by
    unfold transparencyCorrections
    simp only [h]
  unfold validate
  rw [ht]

theorem validate_deterministic_witness :
    validate tmap0 sim_one e_missing_min gt_651640 =
      validate tmap0 sim_one_alt e_missing_min gt_651640 :=
  (validate_deterministic tmap0 sim_one sim_one_alt e_missing_min gt_651640).2
    (fun s t => by norm_num [sim_one, sim_one_alt])

/-- C9: an oracle response that cannot be parsed as a number yields
similarity score 0.0, which sits below every positive threshold, so
whenever a non-empty reference text exists for the extracted state the
disclosure-text correction reason is emitted — never a silent pass. -/
theorem unparseable_similarity_forces_correction
    (tm : String → Option String) (e : ExtractedData) (g : GroundTruth)
    (expected : String) (hlook : tm e.state = some expected)
    (hne : expected ≠ "") (threshold : ℚ) (hpos : 0 < threshold) :
    check_text_similarity none = 0 ∧
    check_text_similarity none < threshold ∧
    CorrectionReason.transparencyMismatch e.state ∈
      (validate tm (fun _ _ => check_text_similarity none) e
        g).corrections_needed := by
  refine ⟨rfl, hpos, ?_⟩
  have htr : transparencyCorrections tm (fun _ _ => check_text_similarity none)
      e.state e.pay_transparency_text =
      [CorrectionReason.transparencyMismatch e.state] := by
    norm_num [transparencyCorrections, hlook, hne, check_text_similarity]
  show CorrectionReason.transparencyMismatch e.state ∈
    (templateCheck e.job_description_present).2
      ++ (minRateCheck e.min_pay_rate g.min_pay_rate).2
      ++ (maxRateCheck e.max_pay_rate g.max_pay_rate).2
      ++ roleRateCorrections e.role_specific_rates g.min_pay_rate g.max_pay_rate
      ++ transparencyCorrections tm (fun _ _ => check_text_similarity none)
          e.state e.pay_transparency_text
      ++ (dollarCheck e.has_dollar_signs).2
  refine List.mem_append_left _ (List.mem_append_right _ ?_)
  rw [htr]
  exact List.mem_singleton_self _

theorem unparseable_similarity_forces_correction_witness :
    CorrectionReason.transparencyMismatch e_missing_min.state ∈
      (validate tmap_il (fun _ _ => check_text_similarity none) e_missing_min
        gt_651640).corrections_needed :=
  (unparseable_similarity_forces_correction tmap_il e_missing_min gt_651640
    "Illinois pay transparency reference text" rfl (by simp)
    ((95 : ℚ)/100) (by norm_num)).2.2

/-- C10: none of the five named verdicts `validate` returns is ever
NOT_APPLICABLE — each is PASS, FAIL or FOR_CHECKING — and the
template-structure verdict always equals the description-completeness
verdict, both being derived from `job_description_present`. -/
theorem verdicts_never_not_applicable (tm : String → Option String)
    (sim : String → String → ℚ) (e : ExtractedData) (g : GroundTruth) :
    (validate tm sim e g).correct_template ≠ ValidationStatus.NOT_APPLICABLE ∧
    (validate tm sim e g).correct_min_pay_rate ≠ ValidationStatus.NOT_APPLICABLE ∧
    (validate tm sim e g).correct_max_pay_rate ≠ ValidationStatus.NOT_APPLICABLE ∧
    (validate tm sim e g).job_description ≠ ValidationStatus.NOT_APPLICABLE ∧
    (validate tm sim e g).dollar_sign_included ≠ ValidationStatus.NOT_APPLICABLE ∧
    (validate tm sim e g).correct_template = (validate tm sim e g).job_description := by
  refine ⟨?_, ?_, ?_, ?_, ?_, ?_⟩
  · cases h : e.job_description_present <;> simp [validate, templateCheck, h]
  · cases h : e.min_pay_rate with
    | none => simp [validate, minRateCheck, h]
    | some r =>
      have hv : (validate tm sim e g).correct_min_pay_rate =
          (minRateCheck e.min_pay_rate g.min_pay_rate).1 := rfl
      rw [hv, h, minRateCheck_some]
      cases hb : rates_equal r g.min_pay_rate <;> simp [hb]
  · cases h : e.max_pay_rate with
    | none => simp [validate, maxRateCheck, h]
    | some r =>
      have hv : (validate tm sim e g).correct_max_pay_rate =
          (maxRateCheck e.max_pay_rate g.max_pay_rate).1 := rfl
      rw [hv, h, maxRateCheck_some]
      cases hb : rates_equal r g.max_pay_rate <;> simp [hb]
  · cases h : e.job_description_present <;> simp [validate, h]
  · cases h : e.has_dollar_signs <;> simp [validate, dollarCheck, h]
  · cases h : e.job_description_present <;> simp [validate, templateCheck, h]

/-- Ground truth for an arbitrary requisition number, with the example
pay range. -/
def gt_of (req_number : String) : GroundTruth :=
  { job_requisition_number := req_number
    business_unit_name := "27R-Seattle"
    min_pay_rate := 14.75
    max_pay_rate := 15
    facility := "1148"
    state := "IL" }

/-- A per-requisition processing step that raises an extraction error
on requisition 651641 and succeeds on every other requisition,
returning its requisition number as the result payload. -/
def process0 : GroundTruth → Except String String := fun g =>
  if g.job_requisition_number = "651641" then
    .error "ExtractionError: required structure not located"
  else .ok g.job_requisition_number

theorem batch_process_append {α : Type} (pe : String → Bool)
    (pr : GroundTruth → Except String α) (l1 l2 : List GroundTruth) :
    batch_process pe pr (l1 ++ l2) =
      batch_process pe pr l1 ++ batch_process pe pr l2 := by
  induction l1 with
  | nil => simp [batch_process]
  | cons g rest ih =>
    simp only [List.cons_append, batch_process]
    by_cases hp : pe g.job_requisition_number
    · simp only [hp, if_true]
      cases pr g <;> simp [ih]
    · simp [hp, ih]

theorem batch_process_all_ok_length {α : Type}
    (pr : GroundTruth → Except String α) (l : List GroundTruth)
    (h : ∀ g ∈ l, ∃ r, pr g = Except.ok r) :
    (batch_process (fun _ => true) pr l).length = l.length := by
  induction l with
  | nil => rfl
  | cons g rest ih =>
    obtain ⟨r, hr⟩ := h g (List.mem_cons_self _ _)
    have htail := ih fun g2 hm => h g2 (List.mem_cons_of_mem _ hm)
    simp [batch_process, hr, htail]

theorem batch_process_mem {α : Type} (pr : GroundTruth → Except String α)
    (l : List GroundTruth) (g : GroundTruth) (r : α)
    (hm : g ∈ l) (hr : pr g = Except.ok r) :
    r ∈ batch_process (fun _ => true) pr l := by
  induction l with
  | nil => cases hm
  | cons g2 rest ih =>
    rcases List.mem_cons.mp hm with he | ht
    · subst he
      simp [batch_process, hr]
    · have hrec := ih ht
      cases hpr : pr g2 with
      | ok r2 =>
        simp only [batch_process, hpr]
        simp only [if_true]
        exact List.mem_cons_of_mem _ hrec
      | error msg =>
        simpa [batch_process, hpr] using hrec

/-- C7 counterexample: in a batch of three requisitions (all PDFs
present) whose middle one raises an extraction error, the batch result
is exactly the two success payloads — two entries, not three: the
failure is only printed, and no error entry appears in the result. -/
theorem batch_one_failure_cex :
    batch_process (fun _ => true) process0
        [gt_of "651640", gt_of "651641", gt_of "651642"] =
      ["651640", "651642"] ∧
    (batch_process (fun _ => true) process0
        [gt_of "651640", gt_of "651641", gt_of "651642"]).length = 2 := by
  constructor
  · simp [batch_process, process0, gt_of]
  · simp [batch_process, process0, gt_of]

/-- C7 (amended): when exactly one requisition of a batch fails and
every PDF is present, `batch_process` returns — without any exception
escaping, since it is a total function — one success entry per
remaining requisition and no entry at all for the failed one; every
remaining requisition is still processed, its result appearing in the
batch output. -/
theorem batch_one_failure_amended {α : Type}
    (process : GroundTruth → Except String α) (l1 l2 : List GroundTruth)
    (bad : GroundTruth) (msg : String)
    (hbad : process bad = Except.error msg)
    (hok : ∀ g ∈ l1 ++ l2, ∃ r, process g = Except.ok r) :
    (batch_process (fun _ => true) process (l1 ++ bad :: l2)).length =
      l1.length + l2.length ∧
    (∀ g ∈ l1 ++ l2, ∀ r, process g = Except.ok r →
      r ∈ batch_process (fun _ => true) process (l1 ++ bad :: l2)) := by
  have hsplit : batch_process (fun _ => true) process (l1 ++ bad :: l2) =
      batch_process (fun _ => true) process l1 ++
        batch_process (fun _ => true) process l2 := by
    rw [batch_process_append]
    congr 1
    simp [batch_process, hbad]
  constructor
  · rw [hsplit, List.length_append]
    rw [batch_process_all_ok_length process l1
        fun g hm => hok g (List.mem_append_left _ hm),
      batch_process_all_ok_length process l2
        fun g hm => hok g (List.mem_append_right _ hm)]
  · intro g hm r hr
    rw [hsplit]
    rcases List.mem_append.mp hm with h | h
    · exact List.mem_append_left _ (batch_process_mem process l1 g r h hr)
    · exact List.mem_append_right _ (batch_process_mem process l2 g r h hr)

theorem batch_one_failure_amended_witness :
    (batch_process (fun _ => true) process0
      [gt_of "651640", gt_of "651641", gt_of "651642"]).length = 2 :=
  (batch_one_failure_amended process0 [gt_of "651640"] [gt_of "651642"]
    (gt_of "651641") "ExtractionError: required structure not located" rfl
    (by
      intro g hm
      simp only [List.mem_append, List.mem_singleton] at hm
      rcases hm with h | h <;> subst h <;> exact ⟨_, rfl⟩)).1

end JobReq

